import Mathlib

/-!
Verification of the Python bridge runtime (src/plugins/python/bridge_runtime.py).

The runtime is a JSON-over-stdio IPC loop: the class PythonBridge reads
newline-delimited command lines from stdin, dispatches them by name to
methods of the backend object, and writes NUL-terminated JSON responses
to stdout.  This file gives a shallow embedding of that runtime:

* PyVal models the Python values flowing through the bridge (the JSON
  universe plus a constructor for arbitrary non-serializable objects and
  one for awaitable results);
* json_loads and json_dumps model the calls into the json module
  (json.loads and json.dumps with their default settings, restricted to
  integer numerals, which is all the protocol uses);
* PythonBridge.handle_command, PythonBridge.run and the built-in ready
  and shutdown handlers are translated statement by statement, with the
  mutable fields of the instance threaded explicitly as a BridgeState.
-/

namespace Bridge

/-- An exception value as observed by the except clauses of the runtime:
the message (what str of the exception yields) and the diagnostic trace
string that traceback.format_exc returns for it at the raise site. -/
structure PyExc where
  msg : String
  trace : String

/-- A Python value as it flows through the bridge.  The first six
constructors are the image of the JSON universe (numbers restricted to
integers, which is all the protocol uses); pyobj stands for any value the
json module cannot serialize, tagged with its Python type name; awaitable
stands for an object with a dunder-await method, carrying the outcome that
resolving it synchronously would produce. -/
inductive PyVal where
  | null
  | bool (b : Bool)
  | int (n : Int)
  | str (s : String)
  | list (elems : List PyVal)
  | dict (fields : List (String × PyVal))
  | pyobj (typeName : String)
  | awaitable (outcome : Except PyExc PyVal)

/-- The Python type name of a value, as it appears in runtime error
messages such as the AttributeError raised by attribute access. -/
def pyTypeName : PyVal → String
  | .null => "NoneType"
  | .bool _ => "bool"
  | .int _ => "int"
  | .str _ => "str"
  | .list _ => "list"
  | .dict _ => "dict"
  | .pyobj t => t
  | .awaitable _ => "coroutine"

/-- Truthiness of a value, as used by the if-expression selecting between
the keyword-expanded call and the zero-argument call. -/
def pyTruthy : PyVal → Bool
  | .null => false
  | .bool b => b
  | .int n => n != 0
  | .str s => s != ""
  | .list elems => !elems.isEmpty
  | .dict fields => !fields.isEmpty
  | .pyobj _ => true
  | .awaitable _ => true

/-- Whether a value is a dict (attribute access for get succeeds on it). -/
def isDict : PyVal → Bool
  | .dict _ => true
  | _ => false

/-- Lookup with default, modelling dict.get on the field list. -/
def dictGet (fields : List (String × PyVal)) (key : String) (dflt : PyVal) : PyVal :=
  match fields with
  | [] => dflt
  | (k, v) :: rest => if k = key then v else dictGet rest key dflt

/-- Key update that models assignment into a Python dict while an object
literal is being decoded: an existing key keeps its position and gets the
new value, a new key is appended. -/
def insertKey (fields : List (String × PyVal)) (key : String) (v : PyVal) :
    List (String × PyVal) :=
  match fields with
  | [] => [(key, v)]
  | (k, w) :: rest =>
    if k = key then (key, v) :: rest else (k, w) :: insertKey rest key v

/-- The trace string traceback.format_exc yields for an exception with the
given message: modelled as the standard header followed by the message. -/
def tracebackOf (msg : String) : String :=
  "Traceback (most recent call last):\n" ++ msg

/-! ### The decoder: json.loads -/

/-- JSON whitespace. -/
def jsonWs (c : Char) : Bool :=
  c = ' ' || c = '\t' || c = '\n' || c = '\r'

/-- Drop leading JSON whitespace. -/
def dropWs (cs : List Char) : List Char :=
  cs.dropWhile jsonWs

/-- Numeric value of one hexadecimal digit, if it is one. -/
def hexDigitVal (c : Char) : Option Nat :=
  if '0' ≤ c ∧ c ≤ '9' then some (c.toNat - 48)
  else if 'a' ≤ c ∧ c ≤ 'f' then some (c.toNat - 97 + 10)
  else if 'A' ≤ c ∧ c ≤ 'F' then some (c.toNat - 65 + 10)
  else Option.none

/-- Body of a JSON string after the opening quote, accumulating decoded
characters; returns the string value and the input after the closing
quote.  Covers the escape sequences of RFC 8259 (with a four-digit
hexadecimal escape decoded as a single code point). -/
def scanStringBody (acc : String) : List Char → Except String (String × List Char)
  | [] => .error "Unterminated string"
  | '"' :: rest => .ok (acc, rest)
  | '\\' :: 'u' :: h1 :: h2 :: h3 :: h4 :: rest =>
    match hexDigitVal h1, hexDigitVal h2, hexDigitVal h3, hexDigitVal h4 with
    | some a, some b, some c, some d =>
      scanStringBody (acc.push (Char.ofNat (((a * 16 + b) * 16 + c) * 16 + d))) rest
    | _, _, _, _ => .error "Invalid hexadecimal escape"
  | '\\' :: e :: rest =>
    if e = '"' then scanStringBody (acc.push '"') rest
    else if e = '\\' then scanStringBody (acc.push '\\') rest
    else if e = '/' then scanStringBody (acc.push '/') rest
    else if e = 'b' then scanStringBody (acc.push (Char.ofNat 8)) rest
    else if e = 'f' then scanStringBody (acc.push (Char.ofNat 12)) rest
    else if e = 'n' then scanStringBody (acc.push '\n') rest
    else if e = 'r' then scanStringBody (acc.push '\r') rest
    else if e = 't' then scanStringBody (acc.push '\t') rest
    else .error "Invalid escape"
  | c :: rest =>
    if c.toNat < 32 then .error "Invalid control character"
    else scanStringBody (acc.push c) rest

/-- Value of a digit string. -/
def decDigitsVal (ds : List Char) : Nat :=
  ds.foldl (fun acc c => acc * 10 + (c.toNat - 48)) 0

/-- A JSON numeral.  The protocol only uses integer ids and integer
results, so the numeric grammar is modelled as an optional minus sign
followed by decimal digits. -/
def scanNumber (cs : List Char) : Except String (PyVal × List Char) :=
  match cs with
  | '-' :: rest =>
    if (rest.takeWhile Char.isDigit).isEmpty then .error "Expecting value"
    else .ok (.int (-(decDigitsVal (rest.takeWhile Char.isDigit) : Int)),
              rest.dropWhile Char.isDigit)
  | _ =>
    if (cs.takeWhile Char.isDigit).isEmpty then .error "Expecting value"
    else .ok (.int (decDigitsVal (cs.takeWhile Char.isDigit)), cs.dropWhile Char.isDigit)

mutual

/-- One JSON value.  The fuel argument bounds the nesting depth; the
top-level entry point supplies more fuel than any input of its length can
consume, so the bound is never hit on real input. -/
def scanValue : Nat → List Char → Except String (PyVal × List Char)
  | 0, _ => .error "Nesting depth exceeded"
  | fuel + 1, cs =>
    match dropWs cs with
    | [] => .error "Expecting value"
    | '{' :: rest =>
      (match dropWs rest with
       | '}' :: rest2 => .ok (.dict [], rest2)
       | cs2 => scanFields fuel cs2 [])
    | '[' :: rest =>
      (match dropWs rest with
       | ']' :: rest2 => .ok (.list [], rest2)
       | cs2 => scanItems fuel cs2 [])
    | '"' :: rest =>
      (match scanStringBody "" rest with
       | .ok (s, rest2) => .ok (.str s, rest2)
       | .error e => .error e)
    | 't' :: 'r' :: 'u' :: 'e' :: rest => .ok (.bool true, rest)
    | 'f' :: 'a' :: 'l' :: 's' :: 'e' :: rest => .ok (.bool false, rest)
    | 'n' :: 'u' :: 'l' :: 'l' :: rest => .ok (.null, rest)
    | cs2 => scanNumber cs2

/-- The comma-separated items of a non-empty array, up to the closing
bracket, appended onto the accumulator. -/
def scanItems : Nat → List Char → List PyVal → Except String (PyVal × List Char)
  | 0, _, _ => .error "Nesting depth exceeded"
  | fuel + 1, cs, acc =>
    match scanValue fuel cs with
    | .error e => .error e
    | .ok (v, rest) =>
      match dropWs rest with
      | ',' :: rest2 => scanItems fuel rest2 (acc ++ [v])
      | ']' :: rest2 => .ok (.list (acc ++ [v]), rest2)
      | _ => .error "Expecting comma delimiter"

/-- The colon-separated members of a non-empty object, up to the closing
brace; a repeated key overwrites the earlier value as assignment into a
Python dict does. -/
def scanFields : Nat → List Char → List (String × PyVal) →
    Except String (PyVal × List Char)
  | 0, _, _ => .error "Nesting depth exceeded"
  | fuel + 1, cs, acc =>
    match dropWs cs with
    | '"' :: rest =>
      (match scanStringBody "" rest with
       | .error e => .error e
       | .ok (key, rest1) =>
         match dropWs rest1 with
         | ':' :: rest2 =>
           (match scanValue fuel rest2 with
            | .error e => .error e
            | .ok (v, rest3) =>
              match dropWs rest3 with
              | ',' :: rest4 => scanFields fuel rest4 (insertKey acc key v)
              | '}' :: rest4 => .ok (.dict (insertKey acc key v), rest4)
              | _ => .error "Expecting comma delimiter")
         | _ => .error "Expecting colon delimiter")
    | _ => .error "Expecting property name"

end

/-- Decode a JSON text to a value: json.loads.  An error models the
JSONDecodeError the json module raises, carrying its message. -/
def json_loads (s : String) : Except String PyVal :=
  match scanValue (s.length + 1) s.data with
  | .error e => .error e
  | .ok (v, rest) => if dropWs rest = [] then .ok v else .error "Extra data"

/-! ### The encoder: json.dumps -/

/-- Decimal digit characters of a natural number, most significant first;
the fuel argument (instantiated with the number itself, which always
suffices) keeps the recursion structural. -/
def natDigits : Nat → Nat → List Char
  | 0, _ => []
  | fuel + 1, n =>
    if n = 0 then []
    else natDigits fuel (n / 10) ++ [Char.ofNat (48 + n % 10)]

/-- Decimal rendering of a positive natural number. -/
def natText (n : Nat) : String :=
  if n = 0 then "0" else String.mk (natDigits n n)

/-- Decimal rendering of an integer, as the json module prints it. -/
def intText (n : Int) : String :=
  if n < 0 then "-" ++ natText n.natAbs else natText n.natAbs

/-- The escape of one character inside a JSON string, with the default
ensure-ascii behaviour of json.dumps: the two-character escapes for the
usual control characters, quote and backslash, a hexadecimal escape for
the remaining control characters and for everything outside printable
ASCII (code points beyond the basic plane are modelled by their low
sixteen bits rather than a surrogate pair), and the character itself
otherwise. -/
def hexDigitChar (n : Nat) : Char :=
  if n < 10 then Char.ofNat (48 + n) else Char.ofNat (97 + (n - 10))

/-- Four-nibble hexadecimal rendering used by the unicode escape. -/
def hexText (n : Nat) : String :=
  String.mk [hexDigitChar (n / 4096 % 16), hexDigitChar (n / 256 % 16),
             hexDigitChar (n / 16 % 16), hexDigitChar (n % 16)]

def escapeChar (c : Char) : String :=
  if c = '"' then "\\\""
  else if c = '\\' then "\\\\"
  else if c = '\n' then "\\n"
  else if c = '\r' then "\\r"
  else if c = '\t' then "\\t"
  else if c.toNat = 8 then "\\b"
  else if c.toNat = 12 then "\\f"
  else if c.toNat < 32 ∨ 126 < c.toNat then "\\u" ++ hexText c.toNat
  else String.singleton c

/-- Concatenation of a list of strings. -/
def catTexts : List String → String
  | [] => ""
  | s :: rest => s ++ catTexts rest

/-- A quoted, escaped JSON string literal. -/
def strText (s : String) : String :=
  "\"" ++ catTexts (s.data.map escapeChar) ++ "\""

/-- The default item separator of json.dumps between rendered pieces. -/
def sepJoin : List String → String
  | [] => ""
  | [s] => s
  | s :: rest => s ++ ", " ++ sepJoin rest

mutual

/-- Encode a value: the body of json.dumps with default settings.  An
error models the TypeError json.dumps raises on a value outside the JSON
universe, carrying its message. -/
def renderVal : PyVal → Except String String
  | .null => .ok "null"
  | .bool b => .ok (if b then "true" else "false")
  | .int n => .ok (intText n)
  | .str s => .ok (strText s)
  | .list elems =>
    (match renderItems elems with
     | .ok rs => .ok ("[" ++ sepJoin rs ++ "]")
     | .error e => .error e)
  | .dict fields =>
    (match renderFields fields with
     | .ok rs => .ok ("\x7b" ++ sepJoin rs ++ "\x7d")
     | .error e => .error e)
  | .pyobj t => .error ("Object of type " ++ t ++ " is not JSON serializable")
  | .awaitable _ => .error "Object of type coroutine is not JSON serializable"

/-- Rendered items of an array. -/
def renderItems : List PyVal → Except String (List String)
  | [] => .ok []
  | v :: vs =>
    match renderVal v, renderItems vs with
    | .ok r, .ok rs => .ok (r :: rs)
    | .error e, _ => .error e
    | _, .error e => .error e

/-- Rendered members of an object, each a key-colon-value piece. -/
def renderFields : List (String × PyVal) → Except String (List String)
  | [] => .ok []
  | (k, v) :: kvs =>
    match renderVal v, renderFields kvs with
    | .ok r, .ok rs => .ok ((strText k ++ ": " ++ r) :: rs)
    | .error e, _ => .error e
    | _, .error e => .error e

end

/-- Encode a value to a JSON text: json.dumps. -/
def json_dumps (v : PyVal) : Except String String :=
  renderVal v

/-- Encoding of a value that is statically known to be serializable; the
empty-string branch is unreachable at every use site (a lemma below
proves each one). -/
def dumpsTotal (v : PyVal) : String :=
  match renderVal v with
  | .ok s => s
  | .error _ => ""

/-! ### The PythonBridge runtime

The mutable fields of a PythonBridge instance are threaded explicitly:
the two fields the base class sets in its initializer (the state bag and
the running flag) together with the fields of the concrete subclass,
collected in a type parameter. -/

/-- The mutable fields of a PythonBridge instance: the running flag and
the state bag of the base class, and the fields of the subclass. -/
structure BridgeState (σ : Type) where
  running : Bool
  state : List (String × PyVal)
  backendState : σ

/-- A backend method: receives the instance fields and the keyword
arguments of the call, returns the updated fields and either the return
value or the exception the call raised (with its trace string). -/
def Handler (σ : Type) := BridgeState σ → List (String × PyVal) →
  BridgeState σ × Except PyExc PyVal

/-- An attribute of the backend object as dispatch sees it: a bound
method, or a non-callable value. -/
inductive Attr (σ : Type) where
  | callable (f : Handler σ)
  | plain (v : PyVal)

/-- A concrete backend: the attribute lookup of the subclass, consulted
before the defaults the base class supplies.  The lookup models getattr
restricted to the names the subclass declares; the two lifecycle methods
of the base class resolve through the fallback below even when the
subclass does not override them. -/
structure Backend (σ : Type) where
  attrs : String → Option (Attr σ)

namespace PythonBridge

variable {σ : Type}

/-- The base initializer: state is an empty dict and the running flag is
False. -/
def bridge_init (s0 : σ) : BridgeState σ :=
  { running := false, state := [], backendState := s0 }

/-- The interpreter version string interpolated into the ready response
(sys.version; environment-supplied, the runtime only forwards it). -/
def sys_version : String := "3.12.0"

/-- The built-in health check method: returns the readiness record.  A
keyword argument makes the call itself raise a TypeError, as calling a
zero-parameter Python method with keywords does. -/
def ready : Handler σ := fun st kwargs =>
  match kwargs with
  | [] => (st, .ok (.dict [("status", .str "ready"),
                           ("python_version", .str sys_version)]))
  | _ => (st, .error ⟨"ready() got an unexpected keyword argument",
                      tracebackOf "TypeError"⟩)

/-- The built-in graceful shutdown method: clears the running flag and
returns the shutdown record. -/
def shutdown : Handler σ := fun st kwargs =>
  match kwargs with
  | [] => ({ st with running := false }, .ok (.dict [("status", .str "shutdown")]))
  | _ => (st, .error ⟨"shutdown() got an unexpected keyword argument",
                      tracebackOf "TypeError"⟩)

/-- Attribute resolution of the dispatch: getattr on the instance with a
None default.  The subclass lookup is consulted first (a subclass method
shadows a base method of the same name); the two lifecycle methods of the
base class are the fallback. -/
def getattrDefault (B : Backend σ) (name : String) : Option (Attr σ) :=
  match B.attrs name with
  | some a => some a
  | Option.none =>
    if name = "ready" then some (.callable ready)
    else if name = "shutdown" then some (.callable shutdown)
    else Option.none

/-- The call expression of the dispatch: the method is called with the
params expanded as keyword arguments when params is truthy, and with no
arguments otherwise; expanding a truthy non-mapping raises a TypeError. -/
def invoke (f : Handler σ) (st : BridgeState σ) (params : PyVal) :
    BridgeState σ × Except PyExc PyVal :=
  if pyTruthy params then
    match params with
    | .dict kvs => f st kvs
    | _ => (st, .error ⟨"argument after ** must be a mapping",
                        tracebackOf "TypeError"⟩)
  else f st []

/-- The synchronous resolution of an awaitable result: a value with a
dunder-await method is run to completion on the event loop, and the
outcome (value or exception) replaces it; any other result passes
through. -/
def resolveAwait : Except PyExc PyVal → Except PyExc PyVal
  | .ok (.awaitable outcome) => outcome
  | r => r

/-- The success or error record the inner try block of handle_command
builds for a call of a resolved method, together with the instance fields
after the call. -/
def callResponse (f : Handler σ) (st : BridgeState σ) (params request_id : PyVal) :
    BridgeState σ × PyVal :=
  let r := invoke f st params
  match resolveAwait r.2 with
  | .ok v =>
    (r.1, .dict [("id", request_id), ("status", .str "success"), ("result", v)])
  | .error e =>
    (r.1, .dict [("id", request_id), ("status", .str "error"),
                 ("error", .str e.msg), ("traceback", .str e.trace)])

/-- The body of the outer try block of handle_command after json.loads
succeeded: field access on the decoded value, attribute resolution and
the call.  An error is an exception escaping to the generic except clause
(field access on a non-dict value, or a non-string command name handed to
getattr); the error records for an unknown or non-callable command are
ordinary return values carrying the request id. -/
def dispatchDecoded (B : Backend σ) (st : BridgeState σ) (cmd : PyVal) :
    BridgeState σ × Except PyExc PyVal :=
  match cmd with
  | .dict kvs =>
    let cmd_name := dictGet kvs "cmd" (.str "")
    let params := dictGet kvs "params" (.dict [])
    let request_id := dictGet kvs "id" (.int 0)
    match cmd_name with
    | .str name =>
      (match getattrDefault B name with
       | Option.none =>
         (st, .ok (.dict [("id", request_id), ("status", .str "error"),
                          ("error", .str ("Unknown command: " ++ name))]))
       | some (.plain _) =>
         (st, .ok (.dict [("id", request_id), ("status", .str "error"),
                          ("error", .str ("Command is not callable: " ++ name))]))
       | some (.callable f) =>
         let r := callResponse f st params request_id
         (r.1, .ok r.2))
    | other =>
      (st, .error ⟨"attribute name must be string, not '" ++ pyTypeName other ++ "'",
                   tracebackOf "TypeError"⟩)
  | other =>
    (st, .error ⟨"'" ++ pyTypeName other ++ "' object has no attribute 'get'",
                 tracebackOf "AttributeError"⟩)

/-- The error record of the except clause for a JSONDecodeError. -/
def invalidJsonResponse (e : String) : PyVal :=
  .dict [("id", .int 0), ("status", .str "error"),
         ("error", .str ("Invalid JSON: " ++ e))]

/-- The error record of the generic except clause. -/
def handlerErrorResponse (e : PyExc) : PyVal :=
  .dict [("id", .int 0), ("status", .str "error"),
         ("error", .str ("Handler error: " ++ e.msg)),
         ("traceback", .str e.trace)]

/-- Handle one incoming command line: decode, dispatch, encode, with the
two except clauses of the source.  The returned string is the encoded
response (handle_command never returns None: every branch of the source
returns a json.dumps result). -/
def handle_command (B : Backend σ) (st : BridgeState σ) (cmd_json : String) :
    BridgeState σ × String :=
  match json_loads cmd_json with
  | .error e => (st, dumpsTotal (invalidJsonResponse e))
  | .ok cmd =>
    let d := dispatchDecoded B st cmd
    match d.2 with
    | .error exc => (d.1, dumpsTotal (handlerErrorResponse exc))
    | .ok resp =>
      match json_dumps resp with
      | .ok out => (d.1, out)
      | .error emsg =>
        (d.1, dumpsTotal (handlerErrorResponse ⟨emsg, tracebackOf emsg⟩))

/-- The sentinel byte delimiting outbound frames. -/
def nulChar : Char := Char.ofNat 0

/-- The frame send_response writes for one encoded response: the payload
followed by the single NUL delimiter byte (the write is flushed
immediately; buffering is not modelled). -/
def send_response (response_json : String) : String :=
  response_json ++ String.singleton nulChar

/-- The event record send_event encodes and emits for an asynchronous
notification; encoding it can raise, which models the TypeError an
unserializable payload produces. -/
def send_event (event_type : String) (data : PyVal) : Except String String :=
  match json_dumps (.dict [("cmd", .str event_type), ("status", .str "event"),
                           ("result", data)]) with
  | .ok out => .ok (send_response out)
  | .error e => .error e

/-- Python str.strip with no argument: removes leading and trailing
whitespace.  (Defined on the character list so that it is structurally
computable.) -/
def pyStrip (s : String) : String :=
  String.mk (((s.data.dropWhile Char.isWhitespace).reverse.dropWhile
    Char.isWhitespace).reverse)

/-- The command line run synthesizes for the readiness handshake. -/
def ready_cmd_json : String :=
  dumpsTotal (.dict [("cmd", .str "ready"), ("id", .int 0)])

/-- The main IPC loop over the remaining input lines: stop when the
running flag is down, skip blank lines, otherwise handle the stripped
line and emit the response frame when the response is non-empty.  Returns
the final instance fields and the emitted frames in order. -/
def runLoop (B : Backend σ) : BridgeState σ → List String → BridgeState σ × List String
  | st, [] => (st, [])
  | st, line :: rest =>
    if st.running then
      let stripped := pyStrip line
      if stripped = "" then runLoop B st rest
      else
        let r := handle_command B st stripped
        let rec2 := runLoop B r.1 rest
        if r.2 = "" then rec2
        else (rec2.1, send_response r.2 :: rec2.2)
    else (st, [])

/-- Start the IPC loop: raise the running flag, dispatch the synthesized
ready command to the instance itself and emit its response when there is
one, then consume stdin. -/
def run (B : Backend σ) (st0 : BridgeState σ) (input : List String) :
    BridgeState σ × List String :=
  let stR := { st0 with running := true }
  let r := handle_command B stR ready_cmd_json
  let rest := runLoop B r.1 input
  if r.2 = "" then rest
  else (rest.1, send_response r.2 :: rest.2)

end PythonBridge

/-! ### The ExampleBackend of the source file

The demonstration subclass at the bottom of bridge_runtime.py, used here
to instantiate the theorems.  The calculate method wraps the external
eval interpreter and is therefore not modelled; the attribute lookup
covers the methods the subclass declares. -/

namespace ExampleBackend

open PythonBridge

/-- The fields the subclass initializer adds: a counter and a message
list. -/
structure ExampleState where
  counter : Int
  messages : List PyVal

/-- The subclass initializer values: counter zero, no messages. -/
def example_init : ExampleState := ⟨0, []⟩

/-- Increment and return the counter. -/
def increment : Handler ExampleState := fun st kwargs =>
  match kwargs with
  | [] =>
    let c := st.backendState.counter + 1
    ({ st with backendState := { st.backendState with counter := c } },
     .ok (.dict [("count", .int c)]))
  | _ => (st, .error ⟨"increment() got an unexpected keyword argument",
                      tracebackOf "TypeError"⟩)

/-- Get the current counter value. -/
def get_count : Handler ExampleState := fun st kwargs =>
  match kwargs with
  | [] => (st, .ok (.dict [("count", .int st.backendState.counter)]))
  | _ => (st, .error ⟨"get_count() got an unexpected keyword argument",
                      tracebackOf "TypeError"⟩)

/-- Add a message to the list and return the new length. -/
def add_message : Handler ExampleState := fun st kwargs =>
  match kwargs with
  | [("message", m)] =>
    let ms := st.backendState.messages ++ [m]
    ({ st with backendState := { st.backendState with messages := ms } },
     .ok (.dict [("count", .int ms.length)]))
  | _ => (st, .error ⟨"add_message() takes exactly the message argument",
                      tracebackOf "TypeError"⟩)

/-- Get all messages. -/
def get_messages : Handler ExampleState := fun st kwargs =>
  match kwargs with
  | [] => (st, .ok (.dict [("messages", .list st.backendState.messages)]))
  | _ => (st, .error ⟨"get_messages() got an unexpected keyword argument",
                      tracebackOf "TypeError"⟩)

/-- Echo back the input data. -/
def echo : Handler ExampleState := fun st kwargs =>
  match kwargs with
  | [("data", v)] => (st, .ok (.dict [("echo", v)]))
  | _ => (st, .error ⟨"echo() takes exactly the data argument",
                      tracebackOf "TypeError"⟩)

/-- The attribute lookup of the subclass instance. -/
def backend : Backend ExampleState :=
  ⟨fun name =>
    if name = "increment" then some (.callable increment)
    else if name = "get_count" then some (.callable get_count)
    else if name = "add_message" then some (.callable add_message)
    else if name = "get_messages" then some (.callable get_messages)
    else if name = "echo" then some (.callable echo)
    else Option.none⟩

/-- A freshly constructed instance (the initializer of the base class
applied to the initializer values of the subclass). -/
def freshState : BridgeState ExampleState := PythonBridge.bridge_init example_init

/-- The instance as run() sees it right after raising the running flag. -/
def liveState : BridgeState ExampleState := { freshState with running := true }

end ExampleBackend

/-! ### Test fixtures

Small concrete backends used only to instantiate the theorems on inputs
that exercise the failure paths. -/

namespace Fixtures

open PythonBridge

/-- A method that always raises a ValueError. -/
def boom : Handler Unit := fun st _ =>
  (st, .error ⟨"boom", tracebackOf "ValueError: boom"⟩)

/-- A method whose return value is outside the JSON universe. -/
def make_obj : Handler Unit := fun st _ =>
  (st, .ok (.pyobj "object"))

/-- A backend exposing the two methods above. -/
def failing : Backend Unit :=
  ⟨fun name =>
    if name = "explode" then some (.callable boom)
    else if name = "make_obj" then some (.callable make_obj)
    else Option.none⟩

/-- A backend declaring no attributes at all. -/
def bare : Backend Unit := ⟨fun _ => Option.none⟩

/-- A unit-state instance with the running flag up. -/
def live : BridgeState Unit := { running := true, state := [], backendState := () }

end Fixtures

/-! ## Proof layer -/

/-! ### Absence of the sentinel byte in encoder output -/

/-- A string is clean when the NUL sentinel byte does not occur in it. -/
def NulFree (s : String) : Prop := PythonBridge.nulChar ∉ s.data

instance (s : String) : Decidable (NulFree s) :=
  inferInstanceAs (Decidable (PythonBridge.nulChar ∉ s.data))

/-- A value the encoder accepts (json.dumps does not raise on it). -/
def RenderOk (v : PyVal) : Prop := ∃ s, renderVal v = .ok s

theorem nulFree_append {a b : String} (ha : NulFree a) (hb : NulFree b) :
    NulFree (a ++ b) := by
  simp only [NulFree, String.data_append, List.mem_append] at *
  exact fun h => h.elim ha hb

theorem digitChar_ne_nul {k : Nat} (h : k < 10) :
    Char.ofNat (48 + k) ≠ PythonBridge.nulChar := by
  interval_cases k <;> decide

theorem hexDigitChar_ne_nul {n : Nat} (h : n < 16) :
    hexDigitChar n ≠ PythonBridge.nulChar := by
  interval_cases n <;> decide

theorem hexText_nulFree (n : Nat) : NulFree (hexText n) := by
  intro h
  have h' : PythonBridge.nulChar ∈
      [hexDigitChar (n / 4096 % 16), hexDigitChar (n / 256 % 16),
       hexDigitChar (n / 16 % 16), hexDigitChar (n % 16)] := h
  simp only [List.mem_cons, List.not_mem_nil, or_false] at h'
  rcases h' with h' | h' | h' | h' <;>
    exact hexDigitChar_ne_nul (Nat.mod_lt _ (by norm_num)) h'.symm

theorem escapeChar_nulFree (c : Char) : NulFree (escapeChar c) := by
  unfold escapeChar
  split_ifs with h1 h2 h3 h4 h5 h6 h7 h8
  · decide
  · decide
  · decide
  · decide
  · decide
  · decide
  · decide
  · exact nulFree_append (by decide) (hexText_nulFree _)
  · push_neg at h8
    intro hmem
    have hdata : (String.singleton c).data = [c] := rfl
    rw [hdata, List.mem_singleton] at hmem
    have h0 : c.toNat = 0 := by rw [← hmem]; rfl
    omega

theorem catTexts_nulFree {l : List String} (h : ∀ s ∈ l, NulFree s) :
    NulFree (catTexts l) := by
  induction l with
  | nil => decide
  | cons s rest ih =>
    simp only [catTexts]
    exact nulFree_append (h s (by simp)) (ih (fun t ht => h t (by simp [ht])))

theorem strText_nulFree (s : String) : NulFree (strText s) := by
  unfold strText
  refine nulFree_append (nulFree_append (by decide) ?_) (by decide)
  exact catTexts_nulFree (fun t ht => by
    obtain ⟨c, _, rfl⟩ := List.mem_map.mp ht
    exact escapeChar_nulFree c)

theorem natDigits_nulFree (fuel n : Nat) :
    PythonBridge.nulChar ∉ natDigits fuel n := by
  induction fuel generalizing n with
  | zero => simp [natDigits]
  | succ fuel ih =>
    simp only [natDigits]
    split
    · simp
    · intro h
      rcases List.mem_append.mp h with h | h
      · exact ih _ h
      · rw [List.mem_singleton] at h
        exact digitChar_ne_nul (Nat.mod_lt _ (by norm_num)) h.symm

theorem natText_nulFree (n : Nat) : NulFree (natText n) := by
  unfold natText
  split
  · decide
  · exact fun h => natDigits_nulFree n n h

theorem intText_nulFree (n : Int) : NulFree (intText n) := by
  unfold intText
  split
  · exact nulFree_append (by decide) (natText_nulFree _)
  · exact natText_nulFree _

theorem sepJoin_nulFree {l : List String} (h : ∀ s ∈ l, NulFree s) :
    NulFree (sepJoin l) := by
  induction l with
  | nil => decide
  | cons s rest ih =>
    match rest with
    | [] => simpa [sepJoin] using h s (by simp)
    | t :: rest2 =>
      simp only [sepJoin]
      refine nulFree_append (nulFree_append (h s (by simp)) (by decide)) ?_
      exact ih (fun u hu => h u (by simp_all))

/-! ### Shape of renderer output -/

theorem renderItems_mem : ∀ (vs : List PyVal) (rs : List String),
    renderItems vs = .ok rs → ∀ t ∈ rs, ∃ v, v ∈ vs ∧ renderVal v = .ok t := by
  intro vs
  induction vs with
  | nil =>
    intro rs h t ht
    simp only [renderItems, Except.ok.injEq] at h
    subst h
    simp at ht
  | cons v vs ih =>
    intro rs h t ht
    simp only [renderItems] at h
    split at h
    · rename_i r rs2 hr hrs
      simp only [Except.ok.injEq] at h
      subst h
      rcases List.mem_cons.mp ht with rfl | ht2
      · exact ⟨v, by simp, hr⟩
      · obtain ⟨u, hu, hru⟩ := ih rs2 hrs t ht2
        exact ⟨u, by simp [hu], hru⟩
    · cases h
    · cases h

theorem renderFields_mem : ∀ (kvs : List (String × PyVal)) (rs : List String),
    renderFields kvs = .ok rs →
    ∀ t ∈ rs, ∃ p r, p ∈ kvs ∧ renderVal p.2 = .ok r ∧ t = strText p.1 ++ ": " ++ r := by
  intro kvs
  induction kvs with
  | nil =>
    intro rs h t ht
    simp only [renderFields, Except.ok.injEq] at h
    subst h
    simp at ht
  | cons p kvs ih =>
    intro rs h t ht
    match p with
    | (k, v) =>
      simp only [renderFields] at h
      split at h
      · rename_i r rs2 hr hrs
        simp only [Except.ok.injEq] at h
        subst h
        rcases List.mem_cons.mp ht with rfl | ht2
        · exact ⟨(k, v), r, by simp, hr, rfl⟩
        · obtain ⟨q, r2, hq, hrq, hteq⟩ := ih rs2 hrs t ht2
          exact ⟨q, r2, by simp [hq], hrq, hteq⟩
      · cases h
      · cases h

/-- Every successful encoder output is free of the sentinel byte: the
escaping of json.dumps never emits a NUL character. -/
theorem renderVal_nulFree : ∀ (v : PyVal) (s : String),
    renderVal v = .ok s → NulFree s
  | .null, s, h => by
    simp only [renderVal, Except.ok.injEq] at h
    subst h
    decide
  | .bool b, s, h => by
    cases b <;>
      (simp only [renderVal, Except.ok.injEq] at h; subst h; decide)
  | .int n, s, h => by
    simp only [renderVal, Except.ok.injEq] at h
    subst h
    exact intText_nulFree n
  | .str t, s, h => by
    simp only [renderVal, Except.ok.injEq] at h
    subst h
    exact strText_nulFree t
  | .list elems, s, h => by
    simp only [renderVal] at h
    split at h
    · rename_i rs hrs
      simp only [Except.ok.injEq] at h
      subst h
      refine nulFree_append (nulFree_append (by decide) ?_) (by decide)
      refine sepJoin_nulFree (fun t ht => ?_)
      obtain ⟨v, hv, hrv⟩ := renderItems_mem elems rs hrs t ht
      exact renderVal_nulFree v t hrv
    · cases h
  | .dict fields, s, h => by
    simp only [renderVal] at h
    split at h
    · rename_i rs hrs
      simp only [Except.ok.injEq] at h
      subst h
      refine nulFree_append (nulFree_append (by decide) ?_) (by decide)
      refine sepJoin_nulFree (fun t ht => ?_)
      obtain ⟨p, r, hp, hrp, rfl⟩ := renderFields_mem fields rs hrs t ht
      refine nulFree_append (nulFree_append (strText_nulFree _) (by decide)) ?_
      exact renderVal_nulFree p.2 r hrp
    · cases h
  | .pyobj t, s, h => by simp [renderVal] at h
  | .awaitable r, s, h => by simp [renderVal] at h
termination_by v => sizeOf v
decreasing_by
  · have hlt := List.sizeOf_lt_of_mem hv
    simp only [PyVal.list.sizeOf_spec]
    omega
  · have hlt := List.sizeOf_lt_of_mem hp
    obtain ⟨a, b⟩ := p
    simp only [PyVal.dict.sizeOf_spec, Prod.mk.sizeOf_spec] at *
    omega

/-- The encoding of a dict is never the empty string (it is at least the
pair of braces), so a response built by handle_command is truthy. -/
theorem renderVal_dict_ne_empty {fields : List (String × PyVal)} {out : String}
    (h : renderVal (.dict fields) = .ok out) : out ≠ "" := by
  simp only [renderVal] at h
  split at h
  · rename_i rs hrs
    simp only [Except.ok.injEq] at h
    subst h
    intro hempty
    have hlen := congrArg String.length hempty
    rw [String.length_append, String.length_append] at hlen
    have h1 : "\x7b".length = 1 := rfl
    have h2 : "\x7d".length = 1 := rfl
    have h3 : "".length = 0 := rfl
    omega
  · cases h

/-! ### Serializable values, and that the decoder only produces them -/

theorem renderOk_null : RenderOk .null := ⟨"null", by simp [renderVal]⟩

theorem renderOk_bool (b : Bool) : RenderOk (.bool b) :=
  ⟨if b then "true" else "false", by cases b <;> simp [renderVal]⟩

theorem renderOk_int (n : Int) : RenderOk (.int n) := ⟨intText n, by simp [renderVal]⟩

theorem renderOk_str (s : String) : RenderOk (.str s) := ⟨strText s, by simp [renderVal]⟩

theorem renderItems_ok_of {vs : List PyVal} (h : ∀ v ∈ vs, RenderOk v) :
    ∃ rs, renderItems vs = .ok rs := by
  induction vs with
  | nil => exact ⟨[], by simp [renderItems]⟩
  | cons v vs ih =>
    obtain ⟨r, hr⟩ := h v (by simp)
    obtain ⟨rs, hrs⟩ := ih (fun u hu => h u (by simp [hu]))
    exact ⟨r :: rs, by simp [renderItems, hr, hrs]⟩

theorem renderFields_ok_of {kvs : List (String × PyVal)}
    (h : ∀ p ∈ kvs, RenderOk p.2) : ∃ rs, renderFields kvs = .ok rs := by
  induction kvs with
  | nil => exact ⟨[], by simp [renderFields]⟩
  | cons p kvs ih =>
    obtain ⟨r, hr⟩ := h p (by simp)
    obtain ⟨rs, hrs⟩ := ih (fun u hu => h u (by simp [hu]))
    obtain ⟨k, v⟩ := p
    exact ⟨(strText k ++ ": " ++ r) :: rs, by simp_all [renderFields]⟩

theorem renderOk_list_of {vs : List PyVal} (h : ∀ v ∈ vs, RenderOk v) :
    RenderOk (.list vs) := by
  obtain ⟨rs, hrs⟩ := renderItems_ok_of h
  exact ⟨"[" ++ sepJoin rs ++ "]", by simp [renderVal, hrs]⟩

theorem renderOk_dict_of {kvs : List (String × PyVal)}
    (h : ∀ p ∈ kvs, RenderOk p.2) : RenderOk (.dict kvs) := by
  obtain ⟨rs, hrs⟩ := renderFields_ok_of h
  exact ⟨"\x7b" ++ sepJoin rs ++ "\x7d", by simp [renderVal, hrs]⟩

theorem renderFields_ok_mem {kvs : List (String × PyVal)} {rs : List String}
    (h : renderFields kvs = .ok rs) : ∀ p ∈ kvs, RenderOk p.2 := by
  induction kvs generalizing rs with
  | nil => simp
  | cons q kvs ih =>
    obtain ⟨k, v⟩ := q
    simp only [renderFields] at h
    split at h
    · rename_i r rs2 hr hrs
      intro p hp
      rcases List.mem_cons.mp hp with rfl | hp2
      · exact ⟨r, hr⟩
      · exact ih hrs p hp2
    · cases h
    · cases h

theorem renderOk_dict_fields {kvs : List (String × PyVal)}
    (h : RenderOk (.dict kvs)) : ∀ p ∈ kvs, RenderOk p.2 := by
  obtain ⟨s, hs⟩ := h
  simp only [renderVal] at hs
  split at hs
  · rename_i rs hrs
    exact renderFields_ok_mem hrs
  · cases hs

theorem dictGet_renderOk {kvs : List (String × PyVal)}
    (h : ∀ p ∈ kvs, RenderOk p.2) (k : String) {dflt : PyVal}
    (hd : RenderOk dflt) : RenderOk (dictGet kvs k dflt) := by
  induction kvs with
  | nil => simpa [dictGet] using hd
  | cons q kvs ih =>
    obtain ⟨k2, v⟩ := q
    simp only [dictGet]
    split
    · exact h (k2, v) (by simp)
    · exact ih (fun p hp => h p (by simp [hp]))

theorem insertKey_renderOk {kvs : List (String × PyVal)} {k : String} {v : PyVal}
    (h : ∀ p ∈ kvs, RenderOk p.2) (hv : RenderOk v) :
    ∀ p ∈ insertKey kvs k v, RenderOk p.2 := by
  induction kvs with
  | nil =>
    intro p hp
    simp only [insertKey, List.mem_singleton] at hp
    subst hp
    exact hv
  | cons q kvs ih =>
    obtain ⟨k2, w⟩ := q
    intro p hp
    simp only [insertKey] at hp
    split at hp
    · rcases List.mem_cons.mp hp with rfl | hp2
      · exact hv
      · exact h p (by simp [hp2])
    · rcases List.mem_cons.mp hp with rfl | hp2
      · exact h (k2, w) (by simp)
      · exact ih (fun q hq => h q (by simp [hq])) p hp2

theorem scanNumber_renderOk {cs : List Char} {v : PyVal} {rest : List Char}
    (h : scanNumber cs = .ok (v, rest)) : RenderOk v := by
  unfold scanNumber at h
  repeat' split at h
  all_goals
    first
      | exact Except.noConfusion h
      | (simp only [Except.ok.injEq, Prod.mk.injEq] at h
         obtain ⟨rfl, rfl⟩ := h
         exact renderOk_int _)

set_option maxHeartbeats 1600000 in
/-- The decoder only builds values inside the JSON universe: everything
json.loads returns is accepted by json.dumps. -/
theorem scan_renderOk : ∀ fuel : Nat,
    (∀ cs v rest, scanValue fuel cs = .ok (v, rest) → RenderOk v)
    ∧ (∀ cs acc v rest, (∀ u ∈ acc, RenderOk u) →
        scanItems fuel cs acc = .ok (v, rest) → RenderOk v)
    ∧ (∀ cs acc v rest, (∀ p ∈ acc, RenderOk p.2) →
        scanFields fuel cs acc = .ok (v, rest) → RenderOk v) := by
  intro fuel
  induction fuel with
  | zero =>
    refine ⟨?_, ?_, ?_⟩ <;> (intros; simp_all [scanValue, scanItems, scanFields])
  | succ fuel ih =>
    obtain ⟨ihV, ihI, ihF⟩ := ih
    refine ⟨?_, ?_, ?_⟩
    · intro cs v rest h
      simp only [scanValue] at h
      repeat' split at h
      all_goals
        first
          | exact Except.noConfusion h
          | exact ihF _ _ _ _ (by simp) h
          | exact ihI _ _ _ _ (by simp) h
          | exact scanNumber_renderOk h
          | (simp only [Except.ok.injEq, Prod.mk.injEq] at h
             obtain ⟨rfl, rfl⟩ := h
             first
               | exact renderOk_dict_of (by simp)
               | exact renderOk_list_of (by simp)
               | exact renderOk_str _
               | exact renderOk_bool _
               | exact renderOk_null)
    · intro cs acc v rest hacc h
      simp only [scanItems] at h
      split at h
      · cases h
      · rename_i val rest1 hval
        have hval2 : RenderOk val := ihV _ _ _ hval
        have hext : ∀ u ∈ acc ++ [val], RenderOk u := by
          intro u hu
          rcases List.mem_append.mp hu with hu | hu
          · exact hacc u hu
          · rw [List.mem_singleton] at hu
            subst hu
            exact hval2
        split at h
        · exact ihI _ _ _ _ hext h
        · simp only [Except.ok.injEq, Prod.mk.injEq] at h
          obtain ⟨rfl, rfl⟩ := h
          exact renderOk_list_of hext
        · cases h
    · intro cs acc v rest hacc h
      simp only [scanFields] at h
      split at h
      · rename_i rest0
        split at h
        · cases h
        · rename_i key rest1 hkey
          split at h
          · rename_i rest2
            split at h
            · cases h
            · rename_i val rest3 hval
              have hval2 : RenderOk val := ihV _ _ _ hval
              have hext : ∀ p ∈ insertKey acc key val, RenderOk p.2 :=
                insertKey_renderOk hacc hval2
              split at h
              · exact ihF _ _ _ _ hext h
              · simp only [Except.ok.injEq, Prod.mk.injEq] at h
                obtain ⟨rfl, rfl⟩ := h
                exact renderOk_dict_of hext
              · cases h
          · cases h
      · cases h

theorem json_loads_renderOk {s : String} {v : PyVal} (h : json_loads s = .ok v) :
    RenderOk v := by
  unfold json_loads at h
  split at h
  · cases h
  · rename_i val rest hscan
    split at h
    · simp only [Except.ok.injEq] at h
      subst h
      exact (scan_renderOk _).1 _ _ _ hscan
    · cases h

theorem json_loads_dict_fields {s : String} {kvs : List (String × PyVal)}
    (h : json_loads s = .ok (.dict kvs)) : ∀ p ∈ kvs, RenderOk p.2 :=
  renderOk_dict_fields (json_loads_renderOk h)

/-! ### Shape of the responses handle_command emits -/

open PythonBridge

theorem callResponse_dict {σ : Type} (f : Handler σ) (st : BridgeState σ)
    (params request_id : PyVal) :
    ∃ kvs, (callResponse f st params request_id).2 = PyVal.dict kvs := by
  simp only [callResponse]
  split
  · exact ⟨_, rfl⟩
  · exact ⟨_, rfl⟩

theorem dispatchDecoded_ok_dict {σ : Type} {B : Backend σ} {st st1 : BridgeState σ}
    {cmd resp : PyVal}
    (h : (dispatchDecoded B st cmd) = (st1, .ok resp)) : ∃ kvs, resp = PyVal.dict kvs := by
  cases cmd
  case dict kvs =>
    simp only [dispatchDecoded] at h
    split at h
    · split at h
      · simp only [Prod.mk.injEq, Except.ok.injEq] at h
        exact ⟨_, h.2.symm⟩
      · simp only [Prod.mk.injEq, Except.ok.injEq] at h
        exact ⟨_, h.2.symm⟩
      · rename_i f hf
        simp only [Prod.mk.injEq, Except.ok.injEq] at h
        obtain ⟨kvs2, hk⟩ := callResponse_dict f st
          (dictGet kvs "params" (.dict [])) (dictGet kvs "id" (.int 0))
        refine ⟨kvs2, ?_⟩
        rw [← h.2]
        exact hk
    · simp only [Prod.mk.injEq] at h
      exact absurd h.2 (by simp)
  all_goals
    (simp only [dispatchDecoded, Prod.mk.injEq] at h
     exact absurd h.2 (by simp))

theorem invalidJsonResponse_renderOk (e : String) :
    RenderOk (invalidJsonResponse e) := by
  apply renderOk_dict_of
  intro p hp
  simp only [invalidJsonResponse, List.mem_cons, List.not_mem_nil, or_false] at hp
  rcases hp with rfl | rfl | rfl
  · exact renderOk_int _
  · exact renderOk_str _
  · exact renderOk_str _

theorem handlerErrorResponse_renderOk (e : PyExc) :
    RenderOk (handlerErrorResponse e) := by
  apply renderOk_dict_of
  intro p hp
  simp only [handlerErrorResponse, List.mem_cons, List.not_mem_nil, or_false] at hp
  rcases hp with rfl | rfl | rfl | rfl
  · exact renderOk_int _
  · exact renderOk_str _
  · exact renderOk_str _
  · exact renderOk_str _

theorem dumpsTotal_eq {v : PyVal} {s : String} (h : renderVal v = .ok s) :
    dumpsTotal v = s := by
  unfold dumpsTotal
  rw [h]

/-- Every string handle_command returns is the successful encoding of
some response dict. -/
theorem handle_command_shape {σ : Type} (B : Backend σ) (st : BridgeState σ)
    (s : String) :
    ∃ kvs out, renderVal (PyVal.dict kvs) = .ok out ∧
      (handle_command B st s).2 = out := by
  unfold handle_command
  split
  · rename_i e heq
    obtain ⟨out, hout⟩ := invalidJsonResponse_renderOk e
    exact ⟨_, out, hout, dumpsTotal_eq hout⟩
  · rename_i cmd hcmd
    dsimp only
    split
    · rename_i exc hd
      obtain ⟨out, hout⟩ := handlerErrorResponse_renderOk exc
      exact ⟨_, out, hout, dumpsTotal_eq hout⟩
    · rename_i resp hd
      split
      · rename_i out hout
        have hpair : dispatchDecoded B st cmd =
            ((dispatchDecoded B st cmd).1, .ok resp) := by
          rw [← hd]
        obtain ⟨kvs, hk⟩ := dispatchDecoded_ok_dict hpair
        subst hk
        exact ⟨kvs, out, hout, rfl⟩
      · rename_i emsg hemsg
        obtain ⟨out, hout⟩ := handlerErrorResponse_renderOk ⟨emsg, tracebackOf emsg⟩
        exact ⟨_, out, hout, dumpsTotal_eq hout⟩

/-- handle_command never returns an empty (falsy) response string. -/
theorem handle_command_ne_empty {σ : Type} (B : Backend σ) (st : BridgeState σ)
    (s : String) : (handle_command B st s).2 ≠ "" := by
  obtain ⟨kvs, out, hrender, heq⟩ := handle_command_shape B st s
  rw [heq]
  exact renderVal_dict_ne_empty hrender

/-! ### Receive loop stepping -/

/-- With the running flag down, the loop consumes nothing: no line is
dispatched, no output is produced, the fields are untouched. -/
theorem runLoop_halted {σ : Type} (B : Backend σ) (st : BridgeState σ)
    (input : List String) (h : st.running = false) :
    runLoop B st input = (st, []) := by
  cases input with
  | nil => rfl
  | cons l rest => simp [runLoop, h]

/-- With the running flag up and a non-blank line at the head, the loop
handles the stripped line, emits its (always non-empty) response frame,
and continues in the updated state. -/
theorem runLoop_step {σ : Type} (B : Backend σ) (st : BridgeState σ)
    (l : String) (rest : List String) (hrun : st.running = true)
    (hne : pyStrip l ≠ "") :
    runLoop B st (l :: rest) =
      ((runLoop B (handle_command B st (pyStrip l)).1 rest).1,
       send_response (handle_command B st (pyStrip l)).2
         :: (runLoop B (handle_command B st (pyStrip l)).1 rest).2) := by
  simp only [runLoop, hrun, if_true, hne, if_false,
    handle_command_ne_empty B st (pyStrip l), ite_false]

/-- Blank lines are skipped without any output. -/
theorem runLoop_blank {σ : Type} (B : Backend σ) (st : BridgeState σ)
    (l : String) (rest : List String) (hrun : st.running = true)
    (hblank : pyStrip l = "") :
    runLoop B st (l :: rest) = runLoop B st rest := by
  simp only [runLoop, hrun, if_true, hblank, ite_true]

/-! ### Unfolding the dispatch on a decoded object -/

theorem dispatchDecoded_dict_unknown {σ : Type} {B : Backend σ}
    (st : BridgeState σ) {kvs : List (String × PyVal)} {name : String}
    (hname : dictGet kvs "cmd" (.str "") = .str name)
    (hres : getattrDefault B name = Option.none) :
    dispatchDecoded B st (.dict kvs) =
      (st, .ok (.dict [("id", dictGet kvs "id" (.int 0)), ("status", .str "error"),
                       ("error", .str ("Unknown command: " ++ name))])) := by
  simp only [dispatchDecoded, hname, hres]

theorem dispatchDecoded_dict_callable {σ : Type} {B : Backend σ}
    (st : BridgeState σ) {kvs : List (String × PyVal)} {name : String}
    {f : Handler σ}
    (hname : dictGet kvs "cmd" (.str "") = .str name)
    (hres : getattrDefault B name = some (.callable f)) :
    dispatchDecoded B st (.dict kvs) =
      ((callResponse f st (dictGet kvs "params" (.dict []))
          (dictGet kvs "id" (.int 0))).1,
       .ok (callResponse f st (dictGet kvs "params" (.dict []))
          (dictGet kvs "id" (.int 0))).2) := by
  simp only [dispatchDecoded, hname, hres]

/-- Both response records the inner try block can build carry the request
id as their id field. -/
theorem callResponse_id {σ : Type} (f : Handler σ) (st : BridgeState σ)
    (params request_id : PyVal) :
    ∃ fields, (callResponse f st params request_id).2 = PyVal.dict fields
      ∧ dictGet fields "id" .null = request_id := by
  simp only [callResponse]
  split
  · exact ⟨_, rfl, by simp [dictGet]⟩
  · exact ⟨_, rfl, by simp [dictGet]⟩

theorem renderOk_unknownResponse {rid : PyVal} (hid : RenderOk rid) (msg : String) :
    RenderOk (.dict [("id", rid), ("status", .str "error"), ("error", .str msg)]) := by
  apply renderOk_dict_of
  intro p hp
  simp only [List.mem_cons, List.not_mem_nil, or_false] at hp
  rcases hp with rfl | rfl | rfl
  · exact hid
  · exact renderOk_str _
  · exact renderOk_str _

theorem renderOk_errTbResponse {rid : PyVal} (hid : RenderOk rid) (m tb : String) :
    RenderOk (.dict [("id", rid), ("status", .str "error"), ("error", .str m),
                     ("traceback", .str tb)]) := by
  apply renderOk_dict_of
  intro p hp
  simp only [List.mem_cons, List.not_mem_nil, or_false] at hp
  rcases hp with rfl | rfl | rfl | rfl
  · exact hid
  · exact renderOk_str _
  · exact renderOk_str _
  · exact renderOk_str _

/-! ## The claims -/

/-- C2: for every input string that is not valid JSON (json.loads raises a
JSONDecodeError with message e), handle_command returns normally (it is a
total function here) with an error Response whose id is 0 and whose status
is the string error, and leaves the instance fields untouched; no other id
ever appears on this path. -/
theorem C2_decode_error {σ : Type} (B : Backend σ) (st : BridgeState σ)
    (s e : String) (h : json_loads s = .error e) :
    ∃ out,
      json_dumps (.dict [("id", .int 0), ("status", .str "error"),
                         ("error", .str ("Invalid JSON: " ++ e))]) = .ok out
      ∧ handle_command B st s = (st, out) := by
  obtain ⟨out, hout⟩ := invalidJsonResponse_renderOk e
  refine ⟨out, hout, ?_⟩
  simp only [handle_command, h]
  rw [dumpsTotal_eq hout]

/-- Witness for C2 at the concrete undecodable input of scenario 4. -/
theorem C2_decode_error_witness :
    json_loads "not-json" = .error "Expecting value"
    ∧ ∃ out,
        json_dumps (.dict [("id", .int 0), ("status", .str "error"),
          ("error", .str ("Invalid JSON: " ++ "Expecting value"))]) = .ok out
        ∧ handle_command Fixtures.bare Fixtures.live "not-json" = (Fixtures.live, out) :=
  ⟨rfl, C2_decode_error Fixtures.bare Fixtures.live "not-json" "Expecting value" rfl⟩

/-- C3: a well-formed Command whose name resolves to no attribute of the
backend produces an error Response that carries the id of the Command and
an error message naming the offending command (scenario 3 of the spec). -/
theorem C3_unknown_command {σ : Type} (B : Backend σ) (st : BridgeState σ)
    (s name : String) (kvs : List (String × PyVal))
    (hload : json_loads s = .ok (.dict kvs))
    (hname : dictGet kvs "cmd" (.str "") = .str name)
    (hres : getattrDefault B name = Option.none) :
    ∃ out,
      json_dumps (.dict [("id", dictGet kvs "id" (.int 0)), ("status", .str "error"),
                         ("error", .str ("Unknown command: " ++ name))]) = .ok out
      ∧ handle_command B st s = (st, out) := by
  have hid : RenderOk (dictGet kvs "id" (.int 0)) :=
    dictGet_renderOk (json_loads_dict_fields hload) "id" (renderOk_int 0)
  obtain ⟨out, hout⟩ := renderOk_unknownResponse hid ("Unknown command: " ++ name)
  refine ⟨out, hout, ?_⟩
  simp only [handle_command, hload, dispatchDecoded_dict_unknown st hname hres,
    json_dumps] at hout ⊢
  simp only [hout]

/-- Witness for C3: scenario 3 of the spec, the nonexistent command with
id 9 against a backend with no attributes. -/
theorem C3_unknown_command_witness :
    json_loads "\x7b\"cmd\": \"nonexistent\", \"id\": 9, \"params\": \x7b\x7d\x7d"
      = .ok (.dict [("cmd", .str "nonexistent"), ("id", .int 9), ("params", .dict [])])
    ∧ ∃ out,
        json_dumps (.dict [("id", PyVal.int 9), ("status", .str "error"),
          ("error", .str ("Unknown command: " ++ "nonexistent"))]) = .ok out
        ∧ handle_command Fixtures.bare Fixtures.live
            "\x7b\"cmd\": \"nonexistent\", \"id\": 9, \"params\": \x7b\x7d\x7d"
            = (Fixtures.live, out) :=
  ⟨rfl, C3_unknown_command Fixtures.bare Fixtures.live
    "\x7b\"cmd\": \"nonexistent\", \"id\": 9, \"params\": \x7b\x7d\x7d"
    "nonexistent" [("cmd", .str "nonexistent"), ("id", .int 9), ("params", .dict [])]
    rfl rfl rfl⟩

/-- C10: an input that is valid JSON but not an object is not reported as
a decode error: the attribute access for get raises an AttributeError
naming the actual type, the generic except clause catches it, and the
Response carries id 0 with the Handler error prefix (not Invalid JSON). -/
theorem C10_nonmapping_decode {σ : Type} (B : Backend σ) (st : BridgeState σ)
    (s : String) (v : PyVal)
    (hload : json_loads s = .ok v) (hnd : isDict v = false) :
    ∃ out,
      json_dumps (.dict [("id", .int 0), ("status", .str "error"),
        ("error", .str ("Handler error: "
          ++ ("'" ++ pyTypeName v ++ "' object has no attribute 'get'"))),
        ("traceback", .str (tracebackOf "AttributeError"))]) = .ok out
      ∧ handle_command B st s = (st, out) := by
  have hdisp : dispatchDecoded B st v =
      (st, .error ⟨"'" ++ pyTypeName v ++ "' object has no attribute 'get'",
                   tracebackOf "AttributeError"⟩) := by
    cases v <;> simp_all [dispatchDecoded, isDict]
  obtain ⟨out, hout⟩ := handlerErrorResponse_renderOk
    ⟨"'" ++ pyTypeName v ++ "' object has no attribute 'get'",
     tracebackOf "AttributeError"⟩
  refine ⟨out, hout, ?_⟩
  simp only [handle_command, hload, hdisp]
  rw [dumpsTotal_eq hout]

/-- Witness for C10 at the bare numeral 42. -/
theorem C10_nonmapping_decode_witness :
    json_loads "42" = .ok (.int 42)
    ∧ ∃ out,
        json_dumps (.dict [("id", .int 0), ("status", .str "error"),
          ("error", .str ("Handler error: "
            ++ ("'" ++ pyTypeName (.int 42) ++ "' object has no attribute 'get'"))),
          ("traceback", .str (tracebackOf "AttributeError"))]) = .ok out
        ∧ handle_command Fixtures.bare Fixtures.live "42" = (Fixtures.live, out) :=
  ⟨rfl, C10_nonmapping_decode Fixtures.bare Fixtures.live "42" (.int 42) rfl rfl⟩

/-- C9: when the handler returns a value json.dumps cannot encode, the
TypeError is caught by the generic except clause and the emitted error
Response carries id 0 with the Handler error prefix, not the id of the
Command: correlation is lost, though the state change of the handler is
kept. -/
theorem C9_serialization_failure {σ : Type} (B : Backend σ) (st : BridgeState σ)
    (s name : String) (kvs : List (String × PyVal)) (f : Handler σ) (emsg : String)
    (hload : json_loads s = .ok (.dict kvs))
    (hname : dictGet kvs "cmd" (.str "") = .str name)
    (hres : getattrDefault B name = some (.callable f))
    (hfail : json_dumps (callResponse f st (dictGet kvs "params" (.dict []))
        (dictGet kvs "id" (.int 0))).2 = .error emsg) :
    ∃ out,
      json_dumps (.dict [("id", .int 0), ("status", .str "error"),
        ("error", .str ("Handler error: " ++ emsg)),
        ("traceback", .str (tracebackOf emsg))]) = .ok out
      ∧ handle_command B st s =
          ((callResponse f st (dictGet kvs "params" (.dict []))
              (dictGet kvs "id" (.int 0))).1, out) := by
  obtain ⟨out, hout⟩ := handlerErrorResponse_renderOk ⟨emsg, tracebackOf emsg⟩
  refine ⟨out, hout, ?_⟩
  simp only [handle_command, hload, dispatchDecoded_dict_callable st hname hres, hfail]
  rw [dumpsTotal_eq hout]

/-- Witness for C9: the make_obj fixture returns a bare object, whose
encoding fails; the emitted response carries id 0 although the Command
carried id 7. -/
theorem C9_serialization_failure_witness :
    json_loads "\x7b\"cmd\": \"make_obj\", \"id\": 7, \"params\": \x7b\x7d\x7d"
      = .ok (.dict [("cmd", .str "make_obj"), ("id", .int 7), ("params", .dict [])])
    ∧ ∃ out,
        json_dumps (.dict [("id", .int 0), ("status", .str "error"),
          ("error", .str ("Handler error: "
            ++ "Object of type object is not JSON serializable")),
          ("traceback", .str (tracebackOf "Object of type object is not JSON serializable"))])
          = .ok out
        ∧ handle_command Fixtures.failing Fixtures.live
            "\x7b\"cmd\": \"make_obj\", \"id\": 7, \"params\": \x7b\x7d\x7d"
            = (Fixtures.live, out) :=
  ⟨rfl, C9_serialization_failure Fixtures.failing Fixtures.live
    "\x7b\"cmd\": \"make_obj\", \"id\": 7, \"params\": \x7b\x7d\x7d"
    "make_obj" [("cmd", .str "make_obj"), ("id", .int 7), ("params", .dict [])]
    Fixtures.make_obj "Object of type object is not JSON serializable"
    rfl rfl rfl
    (by simp only [json_dumps, callResponse, invoke, resolveAwait, renderVal,
          renderFields, renderItems]
        rfl)⟩

/-! ### Evaluation helpers for concrete instances -/

theorem handle_command_eval {σ : Type} {B : Backend σ} {st : BridgeState σ}
    {s : String} {cmd : PyVal} {st1 : BridgeState σ} {resp : PyVal} {out : String}
    (hload : json_loads s = .ok cmd)
    (hdisp : dispatchDecoded B st cmd = (st1, .ok resp))
    (hdump : json_dumps resp = .ok out) :
    handle_command B st s = (st1, out) := by
  simp only [handle_command, hload, hdisp, hdump]

theorem handle_command_eval_dumpFail {σ : Type} {B : Backend σ}
    {st st1 : BridgeState σ} {s : String} {cmd resp : PyVal} {emsg : String}
    (hload : json_loads s = .ok cmd)
    (hdisp : dispatchDecoded B st cmd = (st1, .ok resp))
    (hfail : json_dumps resp = .error emsg)
    {out : String}
    (hout : renderVal (handlerErrorResponse ⟨emsg, tracebackOf emsg⟩) = .ok out) :
    handle_command B st s = (st1, out) := by
  simp only [handle_command, hload, hdisp, hfail]
  rw [dumpsTotal_eq hout]

/-! ### Frames over a whole run -/

/-- The frame for a clean payload contains exactly one sentinel byte, at
its end. -/
theorem send_response_frame {s : String} (h : NulFree s) :
    (send_response s).data.count nulChar = 1
    ∧ (send_response s).data.getLast? = some nulChar := by
  have hdata : (send_response s).data = s.data ++ [nulChar] := by
    simp [send_response, String.data_append]
  constructor
  · rw [hdata, List.count_append, List.count_eq_zero.mpr h]
    simp
  · rw [hdata]
    exact List.getLast?_concat _

/-- Every frame the loop emits is the frame of a successfully encoded
response dict. -/
theorem runLoop_frames {σ : Type} (B : Backend σ) :
    ∀ (input : List String) (st : BridgeState σ),
    ∀ fr ∈ (runLoop B st input).2,
      ∃ kvs out, renderVal (PyVal.dict kvs) = .ok out ∧ fr = send_response out := by
  intro input
  induction input with
  | nil =>
    intro st fr hfr
    simp [runLoop] at hfr
  | cons l rest ih =>
    intro st fr hfr
    by_cases hrun : st.running = true
    · by_cases hblank : pyStrip l = ""
      · rw [runLoop_blank B st l rest hrun hblank] at hfr
        exact ih st fr hfr
      · rw [runLoop_step B st l rest hrun hblank] at hfr
        rcases List.mem_cons.mp hfr with rfl | hfr2
        · obtain ⟨kvs, out, hrender, heq⟩ := handle_command_shape B st (pyStrip l)
          exact ⟨kvs, out, hrender, by rw [heq]⟩
        · exact ih _ fr hfr2
    · rw [runLoop_halted B st (l :: rest) (by simpa using hrun)] at hfr
      simp at hfr

/-- Every frame run emits (the readiness frame included) is the frame of
a successfully encoded response dict. -/
theorem run_frames {σ : Type} (B : Backend σ) (st0 : BridgeState σ)
    (input : List String) :
    ∀ fr ∈ (run B st0 input).2,
      ∃ kvs out, renderVal (PyVal.dict kvs) = .ok out ∧ fr = send_response out := by
  intro fr hfr
  have hne := handle_command_ne_empty B { st0 with running := true } ready_cmd_json
  simp only [run, if_neg hne] at hfr
  rcases List.mem_cons.mp hfr with rfl | hfr2
  · obtain ⟨kvs, out, hrender, heq⟩ :=
      handle_command_shape B { st0 with running := true } ready_cmd_json
    exact ⟨kvs, out, hrender, by rw [heq]⟩
  · exact runLoop_frames B input _ fr hfr2

/-- C1 (amended): for a well-formed Command with integer id whose name
resolves to a callable handler, and whose resulting Response record the
encoder accepts, the emitted Response is exactly that record and the
record carries the id of the Command; when the record cannot be encoded
the fallback error Response carries id 0 instead. -/
theorem C1_response_id {σ : Type} (B : Backend σ) (st : BridgeState σ)
    (s name : String) (kvs : List (String × PyVal)) (n : Int) (f : Handler σ)
    (out : String)
    (hload : json_loads s = .ok (.dict kvs))
    (hid : dictGet kvs "id" (.int 0) = .int n)
    (hname : dictGet kvs "cmd" (.str "") = .str name)
    (hres : getattrDefault B name = some (.callable f))
    (hser : json_dumps (callResponse f st (dictGet kvs "params" (.dict []))
        (dictGet kvs "id" (.int 0))).2 = .ok out) :
    handle_command B st s =
      ((callResponse f st (dictGet kvs "params" (.dict []))
          (dictGet kvs "id" (.int 0))).1, out)
    ∧ ∃ fields,
        (callResponse f st (dictGet kvs "params" (.dict []))
            (dictGet kvs "id" (.int 0))).2 = .dict fields
        ∧ dictGet fields "id" .null = .int n := by
  constructor
  · simp only [handle_command, hload, dispatchDecoded_dict_callable st hname hres, hser]
  · obtain ⟨fields, hf, hfid⟩ := callResponse_id f st
      (dictGet kvs "params" (.dict [])) (dictGet kvs "id" (.int 0))
    exact ⟨fields, hf, by rw [hfid, hid]⟩

/-- Witness for the amended C1: the increment command with id 3 against
the example backend yields the success Response carrying id 3. -/
theorem C1_response_id_witness :
    json_loads "\x7b\"cmd\": \"increment\", \"id\": 3, \"params\": \x7b\x7d\x7d"
      = .ok (.dict [("cmd", .str "increment"), ("id", .int 3), ("params", .dict [])])
    ∧ (handle_command ExampleBackend.backend ExampleBackend.liveState
         "\x7b\"cmd\": \"increment\", \"id\": 3, \"params\": \x7b\x7d\x7d"
         = ({ running := true, state := [],
              backendState := { counter := 1, messages := [] } },
            "\x7b\"id\": 3, \"status\": \"success\", \"result\": \x7b\"count\": 1\x7d\x7d")
       ∧ ∃ fields,
           (callResponse ExampleBackend.increment ExampleBackend.liveState
               (.dict []) (.int 3)).2 = .dict fields
           ∧ dictGet fields "id" .null = .int 3) :=
  ⟨rfl,
   C1_response_id ExampleBackend.backend ExampleBackend.liveState
     "\x7b\"cmd\": \"increment\", \"id\": 3, \"params\": \x7b\x7d\x7d" "increment"
     [("cmd", .str "increment"), ("id", .int 3), ("params", .dict [])] 3
     ExampleBackend.increment
     "\x7b\"id\": 3, \"status\": \"success\", \"result\": \x7b\"count\": 1\x7d\x7d"
     rfl rfl rfl rfl
     (by show json_dumps (.dict [("id", .int 3), ("status", .str "success"),
           ("result", .dict [("count", .int 1)])]) = .ok
           "\x7b\"id\": 3, \"status\": \"success\", \"result\": \x7b\"count\": 1\x7d\x7d"
         simp only [json_dumps, renderVal, renderFields, renderItems]
         rfl)⟩

set_option maxRecDepth 40000 in
/-- C1 as stated is false on the code: this Command is well formed with
integer id 7 and its name resolves to a callable handler, yet the emitted
Response (decoded again in the last conjunct) carries id 0, because the
return value of the handler cannot be encoded. -/
theorem C1_counterexample :
    json_loads "\x7b\"cmd\": \"make_obj\", \"id\": 7, \"params\": \x7b\x7d\x7d"
      = .ok (.dict [("cmd", .str "make_obj"), ("id", .int 7), ("params", .dict [])])
    ∧ getattrDefault Fixtures.failing "make_obj" = some (.callable Fixtures.make_obj)
    ∧ handle_command Fixtures.failing Fixtures.live
        "\x7b\"cmd\": \"make_obj\", \"id\": 7, \"params\": \x7b\x7d\x7d"
      = (Fixtures.live,
         "\x7b\"id\": 0, \"status\": \"error\", \"error\": \"Handler error: Object of type object is not JSON serializable\", \"traceback\": \"Traceback (most recent call last):\\nObject of type object is not JSON serializable\"\x7d")
    ∧ json_loads
        "\x7b\"id\": 0, \"status\": \"error\", \"error\": \"Handler error: Object of type object is not JSON serializable\", \"traceback\": \"Traceback (most recent call last):\\nObject of type object is not JSON serializable\"\x7d"
      = .ok (.dict [("id", .int 0), ("status", .str "error"),
          ("error", .str "Handler error: Object of type object is not JSON serializable"),
          ("traceback",
           .str ("Traceback (most recent call last):\nObject of type object is not JSON serializable"))]) := by
  have hdump : json_dumps (PyVal.dict [("id", .int 7), ("status", .str "success"),
      ("result", .pyobj "object")])
      = .error "Object of type object is not JSON serializable" := by
    simp only [json_dumps, renderVal, renderFields, renderItems]
    rfl
  have hout : renderVal (handlerErrorResponse
      ⟨"Object of type object is not JSON serializable",
       tracebackOf "Object of type object is not JSON serializable"⟩) = .ok
      "\x7b\"id\": 0, \"status\": \"error\", \"error\": \"Handler error: Object of type object is not JSON serializable\", \"traceback\": \"Traceback (most recent call last):\\nObject of type object is not JSON serializable\"\x7d" := by
    simp only [handlerErrorResponse, tracebackOf, renderVal, renderFields, renderItems]
    rfl
  have hload : json_loads "\x7b\"cmd\": \"make_obj\", \"id\": 7, \"params\": \x7b\x7d\x7d"
      = .ok (.dict [("cmd", .str "make_obj"), ("id", .int 7), ("params", .dict [])]) := rfl
  have hdisp : dispatchDecoded Fixtures.failing Fixtures.live
      (.dict [("cmd", .str "make_obj"), ("id", .int 7), ("params", .dict [])])
      = (Fixtures.live, .ok (.dict [("id", .int 7), ("status", .str "success"),
          ("result", .pyobj "object")])) := rfl
  exact ⟨hload, rfl, handle_command_eval_dumpFail hload hdisp hdump hout, rfl⟩

/-- C4: a handler that raises produces an error Response carrying the id
of the Command, the message of the exception and its trace string; the
loop emits that frame and goes on: the next non-blank line is still
dispatched and its own response frame is emitted after it. -/
theorem C4_handler_exception {σ : Type} (B : Backend σ) (st : BridgeState σ)
    (l1 l2 : String) (rest : List String) (kvs : List (String × PyVal))
    (name : String) (f : Handler σ) (e : PyExc)
    (hrun : st.running = true)
    (hl1 : pyStrip l1 ≠ "")
    (hload : json_loads (pyStrip l1) = .ok (.dict kvs))
    (hname : dictGet kvs "cmd" (.str "") = .str name)
    (hres : getattrDefault B name = some (.callable f))
    (hexc : resolveAwait (invoke f st (dictGet kvs "params" (.dict []))).2 = .error e)
    (hstill : (invoke f st (dictGet kvs "params" (.dict []))).1.running = true)
    (hl2 : pyStrip l2 ≠ "") :
    ∃ out1,
      json_dumps (.dict [("id", dictGet kvs "id" (.int 0)), ("status", .str "error"),
                         ("error", .str e.msg), ("traceback", .str e.trace)]) = .ok out1
      ∧ handle_command B st (pyStrip l1) =
          ((invoke f st (dictGet kvs "params" (.dict []))).1, out1)
      ∧ runLoop B st (l1 :: l2 :: rest) =
          ((runLoop B (handle_command B
              (invoke f st (dictGet kvs "params" (.dict []))).1 (pyStrip l2)).1 rest).1,
           send_response out1
             :: send_response (handle_command B
                  (invoke f st (dictGet kvs "params" (.dict []))).1 (pyStrip l2)).2
             :: (runLoop B (handle_command B
                  (invoke f st (dictGet kvs "params" (.dict []))).1 (pyStrip l2)).1 rest).2) := by
  have hcall : callResponse f st (dictGet kvs "params" (.dict []))
      (dictGet kvs "id" (.int 0)) =
      ((invoke f st (dictGet kvs "params" (.dict []))).1,
       .dict [("id", dictGet kvs "id" (.int 0)), ("status", .str "error"),
              ("error", .str e.msg), ("traceback", .str e.trace)]) := by
    simp only [callResponse, hexc]
  have hid : RenderOk (dictGet kvs "id" (.int 0)) :=
    dictGet_renderOk (json_loads_dict_fields hload) "id" (renderOk_int 0)
  obtain ⟨out1, hout1⟩ := renderOk_errTbResponse hid e.msg e.trace
  have hhc : handle_command B st (pyStrip l1) =
      ((invoke f st (dictGet kvs "params" (.dict []))).1, out1) := by
    apply handle_command_eval hload
    · rw [dispatchDecoded_dict_callable st hname hres, hcall]
    · exact hout1
  refine ⟨out1, hout1, hhc, ?_⟩
  rw [runLoop_step B st l1 (l2 :: rest) hrun hl1, hhc,
      runLoop_step B _ l2 rest hstill hl2]

/-- Witness for C4: the explode command with id 4 raises; its error frame
is emitted and the following ready command is still dispatched. -/
theorem C4_handler_exception_witness :
    resolveAwait (invoke Fixtures.boom Fixtures.live (.dict [])).2
      = .error ⟨"boom", tracebackOf "ValueError: boom"⟩
    ∧ ∃ out1,
        json_dumps (.dict [("id", PyVal.int 4), ("status", .str "error"),
          ("error", .str "boom"),
          ("traceback", .str (tracebackOf "ValueError: boom"))]) = .ok out1
        ∧ handle_command Fixtures.failing Fixtures.live
            "\x7b\"cmd\": \"explode\", \"id\": 4\x7d" = (Fixtures.live, out1)
        ∧ runLoop Fixtures.failing Fixtures.live
            ["\x7b\"cmd\": \"explode\", \"id\": 4\x7d", "\x7b\"cmd\": \"ready\", \"id\": 5\x7d"]
            = ((runLoop Fixtures.failing
                  (handle_command Fixtures.failing Fixtures.live
                    (pyStrip "\x7b\"cmd\": \"ready\", \"id\": 5\x7d")).1 []).1,
               send_response out1
                 :: send_response (handle_command Fixtures.failing Fixtures.live
                      (pyStrip "\x7b\"cmd\": \"ready\", \"id\": 5\x7d")).2
                 :: (runLoop Fixtures.failing
                      (handle_command Fixtures.failing Fixtures.live
                        (pyStrip "\x7b\"cmd\": \"ready\", \"id\": 5\x7d")).1 []).2) :=
  ⟨rfl,
   C4_handler_exception Fixtures.failing Fixtures.live
     "\x7b\"cmd\": \"explode\", \"id\": 4\x7d" "\x7b\"cmd\": \"ready\", \"id\": 5\x7d" []
     [("cmd", .str "explode"), ("id", .int 4)] "explode" Fixtures.boom
     ⟨"boom", tracebackOf "ValueError: boom"⟩
     rfl (by decide) rfl rfl rfl rfl rfl (by decide)⟩

/-- C5: on entry run raises the running flag, synthesizes the ready
command line (which decodes to the ready command with id 0, first
conjunct), dispatches it to the instance itself, and emits its response
frame first, ahead of every frame for host input. -/
theorem C5_ready_first {σ : Type} (B : Backend σ) (st0 : BridgeState σ)
    (input : List String) :
    json_loads ready_cmd_json = .ok (.dict [("cmd", .str "ready"), ("id", .int 0)])
    ∧ (run B st0 input).2 =
        send_response (handle_command B { st0 with running := true } ready_cmd_json).2
          :: (runLoop B (handle_command B { st0 with running := true }
                ready_cmd_json).1 input).2 := by
  constructor
  · have hr : ready_cmd_json = "\x7b\"cmd\": \"ready\", \"id\": 0\x7d" := by
      simp only [ready_cmd_json, dumpsTotal, renderVal, renderFields, renderItems]
      rfl
    rw [hr]
    rfl
  · have hne := handle_command_ne_empty B { st0 with running := true } ready_cmd_json
    simp only [run, if_neg hne]

/-- C6: the built-in shutdown handler lowers the running flag and returns
the shutdown record; a loop state with the flag down consumes no further
line at all, so once a dispatched line has lowered the flag the loop
emits that one response frame and dispatches nothing afterwards. -/
theorem C6_shutdown_stops_loop {σ : Type} (st : BridgeState σ) :
    PythonBridge.shutdown st []
      = ({ st with running := false }, .ok (.dict [("status", .str "shutdown")]))
    ∧ (∀ (B : Backend σ) (st1 : BridgeState σ) (input : List String),
        st1.running = false → runLoop B st1 input = (st1, []))
    ∧ (∀ (B : Backend σ) (l : String) (rest : List String),
        st.running = true → pyStrip l ≠ "" →
        (handle_command B st (pyStrip l)).1.running = false →
        runLoop B st (l :: rest) =
          ((handle_command B st (pyStrip l)).1,
           [send_response (handle_command B st (pyStrip l)).2])) := by
  refine ⟨rfl, fun B st1 input h => runLoop_halted B st1 input h, ?_⟩
  intro B l rest hrun hne hdown
  rw [runLoop_step B st l rest hrun hne, runLoop_halted B _ rest hdown]

/-- Witness for C6: a shutdown command with id 2 is answered and the
ready command on the following line is never dispatched. -/
theorem C6_shutdown_stops_loop_witness :
    PythonBridge.shutdown (σ := Unit) Fixtures.live []
      = ({ Fixtures.live with running := false }, .ok (.dict [("status", .str "shutdown")]))
    ∧ runLoop Fixtures.bare ({ Fixtures.live with running := false } : BridgeState Unit)
        ["\x7b\"cmd\": \"ready\", \"id\": 5\x7d"]
        = ({ Fixtures.live with running := false }, [])
    ∧ runLoop Fixtures.bare Fixtures.live
        ["\x7b\"cmd\": \"shutdown\", \"id\": 2\x7d", "\x7b\"cmd\": \"ready\", \"id\": 5\x7d"]
        = ({ running := false, state := [], backendState := () },
           [send_response
              "\x7b\"id\": 2, \"status\": \"success\", \"result\": \x7b\"status\": \"shutdown\"\x7d\x7d"]) := by
  have h := C6_shutdown_stops_loop (σ := Unit) Fixtures.live
  have hdump : json_dumps (PyVal.dict [("id", .int 2), ("status", .str "success"),
      ("result", .dict [("status", .str "shutdown")])]) = .ok
      "\x7b\"id\": 2, \"status\": \"success\", \"result\": \x7b\"status\": \"shutdown\"\x7d\x7d" := by
    simp only [json_dumps, renderVal, renderFields, renderItems]
    rfl
  have hload : json_loads (pyStrip "\x7b\"cmd\": \"shutdown\", \"id\": 2\x7d")
      = .ok (.dict [("cmd", .str "shutdown"), ("id", .int 2)]) := rfl
  have hdisp : dispatchDecoded Fixtures.bare Fixtures.live
      (.dict [("cmd", .str "shutdown"), ("id", .int 2)])
      = ({ running := false, state := [], backendState := () },
         .ok (.dict [("id", .int 2), ("status", .str "success"),
           ("result", .dict [("status", .str "shutdown")])])) := rfl
  have hhc := handle_command_eval hload hdisp hdump
  have h3 := h.2.2 Fixtures.bare "\x7b\"cmd\": \"shutdown\", \"id\": 2\x7d"
    ["\x7b\"cmd\": \"ready\", \"id\": 5\x7d"] rfl (by decide) (by rw [hhc])
  refine ⟨h.1, h.2.1 Fixtures.bare _ _ rfl, ?_⟩
  rw [h3, hhc]

/-- C7: every text the encoder accepts is free of the sentinel byte, so
the frame send_response builds for it carries exactly one sentinel and at
its very end; consequently every frame emitted over a whole run of the
bridge has exactly one sentinel, at its end. -/
theorem C7_frame_sentinel :
    (∀ (v : PyVal) (s : String), json_dumps v = .ok s →
      NulFree s
      ∧ (send_response s).data.count nulChar = 1
      ∧ (send_response s).data.getLast? = some nulChar)
    ∧ (∀ (σ : Type) (B : Backend σ) (st0 : BridgeState σ) (input : List String),
        ∀ fr ∈ (run B st0 input).2,
          fr.data.count nulChar = 1 ∧ fr.data.getLast? = some nulChar) := by
  constructor
  · intro v s h
    have hnf := renderVal_nulFree v s h
    exact ⟨hnf, (send_response_frame hnf).1, (send_response_frame hnf).2⟩
  · intro σ B st0 input fr hfr
    obtain ⟨kvs, out, hrender, rfl⟩ := run_frames B st0 input fr hfr
    exact send_response_frame (renderVal_nulFree _ _ hrender)

/-- Witness for C7 on a concrete encoded response. -/
theorem C7_frame_sentinel_witness :
    json_dumps (.dict [("id", PyVal.int 0)]) = .ok "\x7b\"id\": 0\x7d"
    ∧ (NulFree "\x7b\"id\": 0\x7d"
       ∧ (send_response "\x7b\"id\": 0\x7d").data.count nulChar = 1
       ∧ (send_response "\x7b\"id\": 0\x7d").data.getLast? = some nulChar) := by
  have hd : json_dumps (.dict [("id", PyVal.int 0)]) = .ok "\x7b\"id\": 0\x7d" := by
    simp only [json_dumps, renderVal, renderFields, renderItems]
    rfl
  exact ⟨hd, C7_frame_sentinel.1 _ _ hd⟩

/-- C8 (amended): the base initializer sets the running flag to false
(run raises it on entry to the loop), the built-in ready handler leaves
the instance fields untouched, and of the built-in handlers only shutdown
lowers the flag. -/
theorem C8_flag_lifecycle {σ : Type} (s0 : σ) (st : BridgeState σ)
    (kwargs : List (String × PyVal)) :
    (bridge_init s0).running = false
    ∧ (PythonBridge.ready (σ := σ) st kwargs).1 = st
    ∧ (PythonBridge.shutdown (σ := σ) st []).1.running = false := by
  refine ⟨rfl, ?_, rfl⟩
  cases kwargs <;> rfl

/-- C8 as stated is false on the code: right after construction of a
bridge instance the running flag reads false, not true (the initializer
of PythonBridge sets it to False and only run raises it). -/
theorem C8_counterexample :
    ¬ ((bridge_init ExampleBackend.example_init).running = true) := by
  decide

end Bridge
